import Mathlib

/-!  Verification of the pgmq sqlalchemy client queue core
     (src/tembo-pgmq-python/tembo_pgmq_python/sqlalchemy/queue.py)
     against its natural-language specification.

     The backing store is abstracted as a state type together with a step
     function from statements to rows; each client operation is embedded as a
     function from a store step function, a store state, the session mode and
     the operation arguments to an outcome consisting of the returned value
     (or raised error), the store state afterwards and the trace of store
     interactions (statement executions and commits). -/

namespace PgmqSqla

/-- A scalar cell of a row returned by the backing store. -/
inductive Val
  | int (n : Int)
  | str (s : String)
  | bool (b : Bool)
  | null
deriving Repr, DecidableEq

/-- A raw row returned by the store: cells in positional order. -/
abbrev Row := List Val

/-- Modelled from the spec: the call surface of the backing store's queue
primitives, spec section 6 table.  The statement-builder module
`tembo_pgmq_python/sqlalchemy/_statement.py` of the repository is not under
src/, so a statement is represented by its verb and bound arguments rather
than by SQL text; section 6 fixes exactly this surface (verb, arguments,
returned tuple shape) and section 4.1 makes the builder a pure function of
the operation and its arguments. -/
inductive Stmt
  | validate (queue : String)
  | create (queue : String) (unlogged : Bool)
  | createPartitioned (queue partitionInterval retentionInterval : String)
  | drop (queue : String) (partitioned : Bool)
  | listQueues
  | send (queue payload : String) (delay : Int)
  | sendBatch (queue payloads : String) (delay : Int)
  | read (queue : String) (vt : Int)
  | readBatch (queue : String) (vt qty : Int)
  | readWithPoll (queue : String) (vt qty maxPollSeconds pollIntervalMs : Int)
  | setVt (queue : String) (msgId vtOffset : Int)
  | pop (queue : String)
  | delete (queue : String) (msgId : Int)
  | deleteBatch (queue : String) (msgIds : List Int)
  | archive (queue : String) (msgId : Int)
  | archiveBatch (queue : String) (msgIds : List Int)
  | purge (queue : String)
  | metrics (queue : String)
  | metricsAll
  | pgmqExtCheck
  | pgPartmanExtCreate
deriving Repr, DecidableEq

/-- Which session a store interaction ran on: a session the client opened
itself, or a caller-supplied (external) one. -/
inductive SessionKind
  | own
  | external
deriving Repr, DecidableEq

/-- Observable store interactions of one client call, in order. -/
inductive Event
  | exec (sk : SessionKind) (stmt : Stmt)
  | commit (sk : SessionKind)
deriving Repr, DecidableEq

/-- Errors a client call can raise.  `configuration` is the ValueError of
`_initialize_sqlalchemy`; `validation` the queue-name validation failure;
`noneSession` the AttributeError of calling execute on a None session;
`noneRow` the TypeError of subscripting a None fetchone result; `indexErr`
the IndexError of subscripting a too-short row. -/
inductive Err
  | configuration
  | validation
  | noneSession
  | noneRow
  | indexErr
deriving Repr, DecidableEq

/-- Result of one client call against a store with state type `σ`: the
returned value or raised error, the store state afterwards, and the trace of
store interactions. -/
structure Outcome (σ : Type) (α : Type) where
  res : Except Err α
  store : σ
  events : List Event

/-- Modelled from the spec: the `Message` record of
`tembo_pgmq_python/messages.py`, which is not under src/; section 3 gives
the record fields.  Cells keep their raw store values, as the mapper assigns
them positionally without conversion. -/
structure Message where
  msg_id : Val
  read_ct : Val
  enqueued_at : Val
  vt : Val
  message : Val
deriving Repr, DecidableEq

/-- Modelled from the spec: the `QueueMetrics` record of
`tembo_pgmq_python/messages.py`, which is not under src/; section 3 gives
the record fields. -/
structure QueueMetrics where
  queue_name : Val
  queue_length : Val
  newest_msg_age_sec : Val
  oldest_msg_age_sec : Val
  total_messages : Val
  scrape_time : Val
deriving Repr, DecidableEq

/-- Positional row-to-Message mapping of the result mapper: the source reads
row[0] through row[4]; a row shorter than five cells raises (IndexError). -/
def rowToMessage : Row → Option Message
  | a :: b :: c :: d :: e :: _ => some ⟨a, b, c, d, e⟩
  | _ => none

/-- Positional row-to-QueueMetrics mapping: row[0] through row[5]. -/
def rowToMetrics : Row → Option QueueMetrics
  | a :: b :: c :: d :: e :: f :: _ => some ⟨a, b, c, d, e, f⟩
  | _ => none

/-- Map every row of a fetchall result to a Message, failing if any row is
too short (the source's list comprehension raises on the first bad row). -/
def messagesOfRows : List Row → Option (List Message)
  | [] => some []
  | r :: rs =>
    match rowToMessage r, messagesOfRows rs with
    | some m, some ms => some (m :: ms)
    | _, _ => none

/-- Map every row of a fetchall result to a QueueMetrics record. -/
def metricsOfRows : List Row → Option (List QueueMetrics)
  | [] => some []
  | r :: rs =>
    match rowToMetrics r, metricsOfRows rs with
    | some m, some ms => some (m :: ms)
    | _, _ => none

/-- The session a decorated operation runs on: the caller-supplied one when
present, otherwise one the client opens itself (the inject decorators of
`_decorators.py`, not under src/; modelled from the spec, section 4.2: both
backends accept an externally supplied session as an optional override). -/
def sessKind (ext : Bool) : SessionKind :=
  if ext then SessionKind.external else SessionKind.own

/-- Commit trace of the `if commit: session.commit()` epilogue. -/
def commitEvents (sk : SessionKind) (commit : Bool) : List Event :=
  if commit then [Event.commit sk] else []

/-- row[0] of a fetchone result: a missing row raises (TypeError on None in
the source), an empty row raises (IndexError). -/
def cellZero : Option Row → Except Err Val
  | none => Except.error Err.noneRow
  | some r =>
    match r.head? with
    | none => Except.error Err.indexErr
    | some v => Except.ok v

/-- fetchone mapping of the single-message operations: a missing row is an
absent result (None), a present row is mapped positionally. -/
def messageOfRow : Option Row → Except Err (Option Message)
  | none => Except.ok none
  | some r =>
    match rowToMessage r with
    | some m => Except.ok (some m)
    | none => Except.error Err.indexErr

/-- fetchall mapping of the batch read operations: an empty row set returns
None (absent), otherwise every row is mapped positionally. -/
def messagesOfFetch (rows : List Row) : Except Err (Option (List Message)) :=
  if rows = [] then Except.ok none
  else
    match messagesOfRows rows with
    | some ms => Except.ok (some ms)
    | none => Except.error Err.indexErr

/-- fetchall mapping of metrics_all: empty row set returns None (absent). -/
def metricsOfFetch (rows : List Row) : Except Err (Option (List QueueMetrics)) :=
  if rows = [] then Except.ok none
  else
    match metricsOfRows rows with
    | some ms => Except.ok (some ms)
    | none => Except.error Err.indexErr

/-- row[0] of every row of a fetchall result (the id-list operations). -/
def firstCells : List Row → Except Err (List Val)
  | [] => Except.ok []
  | r :: rs =>
    match r.head?, firstCells rs with
    | some v, Except.ok vs => Except.ok (v :: vs)
    | _, _ => Except.error Err.indexErr

namespace _statement

/-- Modelled from the spec: `_statement.validate_queue_name` (the module is
not under src/).  Spec section 4.1: the builder validates queue-name length
(at most 48 characters) before building any statement that targets a queue
and signals a validation failure otherwise, not reaching the store. -/
def validate_queue_name (q : String) : Except Err Stmt :=
  if 48 < q.length then Except.error Err.validation
  else Except.ok (Stmt.validate q)

/-- Modelled from the spec: `_statement.create_queue`; lifecycle statements
are guarded by the length validation (spec section 4.1). -/
def create_queue (q : String) (unlogged : Bool) : Except Err Stmt :=
  if 48 < q.length then Except.error Err.validation
  else Except.ok (Stmt.create q unlogged)

/-- Modelled from the spec: `_statement.create_partitioned_queue`, guarded
by the length validation (spec section 4.1). -/
def create_partitioned_queue (q pI rI : String) : Except Err Stmt :=
  if 48 < q.length then Except.error Err.validation
  else Except.ok (Stmt.createPartitioned q pI rI)

/-- Modelled from the spec: `_statement.drop_queue`, guarded by the length
validation (spec section 4.1). -/
def drop_queue (q : String) (partitioned : Bool) : Except Err Stmt :=
  if 48 < q.length then Except.error Err.validation
  else Except.ok (Stmt.drop q partitioned)

/-- Modelled from the spec: `_statement.purge`, a lifecycle (destructive)
statement guarded by the length validation (spec section 4.1). -/
def purge (q : String) : Except Err Stmt :=
  if 48 < q.length then Except.error Err.validation
  else Except.ok (Stmt.purge q)

/-- Modelled from the spec: `_statement.send` (section 6 table). -/
def send (q payload : String) (delay : Int) : Stmt :=
  Stmt.send q payload delay

/-- Modelled from the spec: `_statement.send_batch` (section 6 table). -/
def send_batch (q payloads : String) (delay : Int) : Stmt :=
  Stmt.sendBatch q payloads delay

/-- Modelled from the spec: `_statement.read` (section 6 table). -/
def read (q : String) (vt : Int) : Stmt :=
  Stmt.read q vt

/-- Modelled from the spec: `_statement.read_batch` (section 6 table). -/
def read_batch (q : String) (vt qty : Int) : Stmt :=
  Stmt.readBatch q vt qty

/-- Modelled from the spec: `_statement.read_with_poll` (section 6 table). -/
def read_with_poll (q : String) (vt qty mps pim : Int) : Stmt :=
  Stmt.readWithPoll q vt qty mps pim

/-- Modelled from the spec: `_statement.set_vt` (section 6 table). -/
def set_vt (q : String) (msgId vtOffset : Int) : Stmt :=
  Stmt.setVt q msgId vtOffset

/-- Modelled from the spec: `_statement.pop` (section 6 table). -/
def pop (q : String) : Stmt :=
  Stmt.pop q

/-- Modelled from the spec: `_statement.delete` (section 6 table).  The
async twin in queue.py inlines the same call as literal SQL text
interpolating the identical queue name and message id, so it denotes the
same statement value. -/
def delete (q : String) (msgId : Int) : Stmt :=
  Stmt.delete q msgId

/-- Modelled from the spec: `_statement.delete_batch` (section 6 table);
the async twin inlines the same verb and arguments as literal SQL text. -/
def delete_batch (q : String) (msgIds : List Int) : Stmt :=
  Stmt.deleteBatch q msgIds

/-- Modelled from the spec: `_statement.archive` (section 6 table). -/
def archive (q : String) (msgId : Int) : Stmt :=
  Stmt.archive q msgId

/-- Modelled from the spec: `_statement.archive_batch` (section 6 table). -/
def archive_batch (q : String) (msgIds : List Int) : Stmt :=
  Stmt.archiveBatch q msgIds

/-- Modelled from the spec: `_statement.metrics` (section 6 table). -/
def metrics (q : String) : Stmt :=
  Stmt.metrics q

/-- Modelled from the spec: `_statement.metrics_all` (section 6 table). -/
def metrics_all : Stmt :=
  Stmt.metricsAll

end _statement

variable {σ : Type}

/-- Embedding of `_validate_queue_name_sync` (queue.py lines 358-361): build
the validate statement and execute it on the session; no commit. -/
def _validate_queue_name_sync (rt : σ → Stmt → σ × List Row) (s : σ) (ext : Bool)
    (q : String) : Outcome σ Unit :=
  match _statement.validate_queue_name q with
  | Except.error e => ⟨Except.error e, s, []⟩
  | Except.ok stmt =>
    ⟨Except.ok (), (rt s stmt).1, [Event.exec (sessKind ext) stmt]⟩

/-- Embedding of `_create_queue_sync` (queue.py lines 216-227): execute the
create statement, then commit when the commit flag is set. -/
def _create_queue_sync (rt : σ → Stmt → σ × List Row) (s : σ) (ext : Bool)
    (q : String) (unlogged commit : Bool) : Outcome σ Unit :=
  match _statement.create_queue q unlogged with
  | Except.error e => ⟨Except.error e, s, []⟩
  | Except.ok stmt =>
    ⟨Except.ok (), (rt s stmt).1,
     Event.exec (sessKind ext) stmt :: commitEvents (sessKind ext) commit⟩

/-- Embedding of `_create_partitioned_queue_sync` (queue.py lines 276-288);
the public method passes the intervals already converted to strings. -/
def _create_partitioned_queue_sync (rt : σ → Stmt → σ × List Row) (s : σ)
    (ext : Bool) (q pI rI : String) (commit : Bool) : Outcome σ Unit :=
  match _statement.create_partitioned_queue q pI rI with
  | Except.error e => ⟨Except.error e, s, []⟩
  | Except.ok stmt =>
    ⟨Except.ok (), (rt s stmt).1,
     Event.exec (sessKind ext) stmt :: commitEvents (sessKind ext) commit⟩

/-- Embedding of `_drop_queue_sync` (queue.py lines 384-392): execute,
commit when set, return row[0] of the fetched row. -/
def _drop_queue_sync (rt : σ → Stmt → σ × List Row) (s : σ) (ext : Bool)
    (q : String) (partitioned commit : Bool) : Outcome σ Val :=
  match _statement.drop_queue q partitioned with
  | Except.error e => ⟨Except.error e, s, []⟩
  | Except.ok stmt =>
    ⟨cellZero (rt s stmt).2.head?, (rt s stmt).1,
     Event.exec (sessKind ext) stmt :: commitEvents (sessKind ext) commit⟩

/-- Embedding of `_send_sync` (queue.py lines 472-479); the public method
encodes the payload document before dispatching. -/
def _send_sync (rt : σ → Stmt → σ × List Row) (s : σ) (ext : Bool)
    (q payload : String) (delay : Int) (commit : Bool) : Outcome σ Val :=
  let stmt := _statement.send q payload delay
  ⟨cellZero (rt s stmt).2.head?, (rt s stmt).1,
   Event.exec (sessKind ext) stmt :: commitEvents (sessKind ext) commit⟩

/-- Embedding of `_read_sync` (queue.py lines 595-604): fetchone, commit
when set, then None for a missing row and a positionally mapped Message for
a present one. -/
def _read_sync (rt : σ → Stmt → σ × List Row) (s : σ) (ext : Bool)
    (q : String) (vt : Int) (commit : Bool) : Outcome σ (Option Message) :=
  let stmt := _statement.read q vt
  ⟨messageOfRow (rt s stmt).2.head?, (rt s stmt).1,
   Event.exec (sessKind ext) stmt :: commitEvents (sessKind ext) commit⟩

/-- Embedding of `_read_batch_sync` (queue.py lines 701-724): fetchall,
commit when set, None for an empty row set, else map every row. -/
def _read_batch_sync (rt : σ → Stmt → σ × List Row) (s : σ) (ext : Bool)
    (q : String) (vt batchSize : Int) (commit : Bool) :
    Outcome σ (Option (List Message)) :=
  let stmt := _statement.read_batch q vt batchSize
  ⟨messagesOfFetch (rt s stmt).2, (rt s stmt).1,
   Event.exec (sessKind ext) stmt :: commitEvents (sessKind ext) commit⟩

/-- Embedding of `_read_with_poll_sync` (queue.py lines 795-823), which is
decorated with the session injector: fetchall, commit when set, None for an
empty row set, else map every row. -/
def _read_with_poll_sync (rt : σ → Stmt → σ × List Row) (s : σ) (ext : Bool)
    (q : String) (vt qty mps pim : Int) (commit : Bool) :
    Outcome σ (Option (List Message)) :=
  let stmt := _statement.read_with_poll q vt qty mps pim
  ⟨messagesOfFetch (rt s stmt).2, (rt s stmt).1,
   Event.exec (sessKind ext) stmt :: commitEvents (sessKind ext) commit⟩

/-- Embedding of `_read_with_poll_async` (queue.py lines 825-852).  Unlike
every other async operation and unlike its sync twin, the source carries no
session-injecting decorator, so when the caller supplies no session the
body dereferences a None session and fails before any statement reaches the
store. -/
def _read_with_poll_async (rt : σ → Stmt → σ × List Row) (s : σ) (ext : Bool)
    (q : String) (vt qty mps pim : Int) (commit : Bool) :
    Outcome σ (Option (List Message)) :=
  if ext then
    let stmt := _statement.read_with_poll q vt qty mps pim
    ⟨messagesOfFetch (rt s stmt).2, (rt s stmt).1,
     Event.exec SessionKind.external stmt :: commitEvents SessionKind.external commit⟩
  else ⟨Except.error Err.noneSession, s, []⟩

/-- Embedding of `_set_vt_sync` (queue.py lines 937-947). -/
def _set_vt_sync (rt : σ → Stmt → σ × List Row) (s : σ) (ext : Bool)
    (q : String) (msgId vtOffset : Int) (commit : Bool) :
    Outcome σ (Option Message) :=
  let stmt := _statement.set_vt q msgId vtOffset
  ⟨messageOfRow (rt s stmt).2.head?, (rt s stmt).1,
   Event.exec (sessKind ext) stmt :: commitEvents (sessKind ext) commit⟩

/-- Embedding of `_set_vt_async` (queue.py lines 949-958).  Like
`_read_with_poll_async` it carries no session-injecting decorator, so with
no caller-supplied session it fails before any statement reaches the
store. -/
def _set_vt_async (rt : σ → Stmt → σ × List Row) (s : σ) (ext : Bool)
    (q : String) (msgId vtOffset : Int) (commit : Bool) :
    Outcome σ (Option Message) :=
  if ext then
    let stmt := _statement.set_vt q msgId vtOffset
    ⟨messageOfRow (rt s stmt).2.head?, (rt s stmt).1,
     Event.exec SessionKind.external stmt :: commitEvents SessionKind.external commit⟩
  else ⟨Except.error Err.noneSession, s, []⟩

/-- Embedding of `_pop_sync` (queue.py lines 1042-1049). -/
def _pop_sync (rt : σ → Stmt → σ × List Row) (s : σ) (ext : Bool)
    (q : String) (commit : Bool) : Outcome σ (Option Message) :=
  let stmt := _statement.pop q
  ⟨messageOfRow (rt s stmt).2.head?, (rt s stmt).1,
   Event.exec (sessKind ext) stmt :: commitEvents (sessKind ext) commit⟩

/-- Embedding of `_delete_sync` (queue.py lines 1089-1101): execute the
delete statement, commit when set, return row[0]. -/
def _delete_sync (rt : σ → Stmt → σ × List Row) (s : σ) (ext : Bool)
    (q : String) (msgId : Int) (commit : Bool) : Outcome σ Val :=
  let stmt := _statement.delete q msgId
  ⟨cellZero (rt s stmt).2.head?, (rt s stmt).1,
   Event.exec (sessKind ext) stmt :: commitEvents (sessKind ext) commit⟩

/-- Embedding of `_delete_async` (queue.py lines 1103-1115): decorated with
the session injector; the inline SQL text interpolates the same queue name
and message id as the sync builder call, hence the same statement value. -/
def _delete_async (rt : σ → Stmt → σ × List Row) (s : σ) (ext : Bool)
    (q : String) (msgId : Int) (commit : Bool) : Outcome σ Val :=
  let stmt := Stmt.delete q msgId
  ⟨cellZero (rt s stmt).2.head?, (rt s stmt).1,
   Event.exec (sessKind ext) stmt :: commitEvents (sessKind ext) commit⟩

/-- Embedding of `_delete_batch_sync` (queue.py lines 1153-1164): execute,
commit when set, return row[0] of every fetched row. -/
def _delete_batch_sync (rt : σ → Stmt → σ × List Row) (s : σ) (ext : Bool)
    (q : String) (msgIds : List Int) (commit : Bool) : Outcome σ (List Val) :=
  let stmt := _statement.delete_batch q msgIds
  ⟨firstCells (rt s stmt).2, (rt s stmt).1,
   Event.exec (sessKind ext) stmt :: commitEvents (sessKind ext) commit⟩

/-- Embedding of `_archive_sync` (queue.py lines 1218-1226). -/
def _archive_sync (rt : σ → Stmt → σ × List Row) (s : σ) (ext : Bool)
    (q : String) (msgId : Int) (commit : Bool) : Outcome σ Val :=
  let stmt := _statement.archive q msgId
  ⟨cellZero (rt s stmt).2.head?, (rt s stmt).1,
   Event.exec (sessKind ext) stmt :: commitEvents (sessKind ext) commit⟩

/-- Embedding of `_archive_batch_sync` (queue.py lines 1277-1285). -/
def _archive_batch_sync (rt : σ → Stmt → σ × List Row) (s : σ) (ext : Bool)
    (q : String) (msgIds : List Int) (commit : Bool) : Outcome σ (List Val) :=
  let stmt := _statement.archive_batch q msgIds
  ⟨firstCells (rt s stmt).2, (rt s stmt).1,
   Event.exec (sessKind ext) stmt :: commitEvents (sessKind ext) commit⟩

/-- Embedding of `_purge_sync` (queue.py lines 1333-1339). -/
def _purge_sync (rt : σ → Stmt → σ × List Row) (s : σ) (ext : Bool)
    (q : String) (commit : Bool) : Outcome σ Val :=
  match _statement.purge q with
  | Except.error e => ⟨Except.error e, s, []⟩
  | Except.ok stmt =>
    ⟨cellZero (rt s stmt).2.head?, (rt s stmt).1,
     Event.exec (sessKind ext) stmt :: commitEvents (sessKind ext) commit⟩

/-- Embedding of `_metrics_all_sync` (queue.py lines 1440-1456): fetchall
with no commit; None for an empty row set, else map every row. -/
def _metrics_all_sync (rt : σ → Stmt → σ × List Row) (s : σ) (ext : Bool) :
    Outcome σ (Option (List QueueMetrics)) :=
  let stmt := _statement.metrics_all
  ⟨metricsOfFetch (rt s stmt).2, (rt s stmt).1,
   [Event.exec (sessKind ext) stmt]⟩

namespace PGMQueue

/-- Embedding of the public `read_with_poll` (queue.py lines 854-935): the
branching selects only which execution path runs; arguments pass through
unchanged. -/
def read_with_poll (is_async : Bool) (rt : σ → Stmt → σ × List Row) (s : σ)
    (ext : Bool) (q : String) (vt qty mps pim : Int) (commit : Bool) :
    Outcome σ (Option (List Message)) :=
  if is_async then _read_with_poll_async rt s ext q vt qty mps pim commit
  else _read_with_poll_sync rt s ext q vt qty mps pim commit

/-- Embedding of the public `set_vt` (queue.py lines 960-1040). -/
def set_vt (is_async : Bool) (rt : σ → Stmt → σ × List Row) (s : σ)
    (ext : Bool) (q : String) (msgId vtOffset : Int) (commit : Bool) :
    Outcome σ (Option Message) :=
  if is_async then _set_vt_async rt s ext q msgId vtOffset commit
  else _set_vt_sync rt s ext q msgId vtOffset commit

/-- Embedding of the public `delete` (queue.py lines 1117-1151). -/
def delete (is_async : Bool) (rt : σ → Stmt → σ × List Row) (s : σ)
    (ext : Bool) (q : String) (msgId : Int) (commit : Bool) : Outcome σ Val :=
  if is_async then _delete_async rt s ext q msgId commit
  else _delete_sync rt s ext q msgId commit

end PGMQueue

/-- Client-held mutable state relevant to the pg_partman extension check
(the class attribute `is_pg_partman_ext_checked`, queue.py line 34). -/
structure ClientFlags where
  is_pg_partman_ext_checked : Bool
deriving Repr, DecidableEq

/-- Embedding of `_check_pg_partman_ext` (queue.py lines 206-214) composed
with `_check_pg_partman_ext_sync` (lines 200-204): when the client-owned
flag is set, return immediately; otherwise set the flag, execute the
create-extension statement on a client-opened session and commit. -/
def _check_pg_partman_ext (rt : σ → Stmt → σ × List Row) (s : σ)
    (c : ClientFlags) : ClientFlags × σ × List Event :=
  if c.is_pg_partman_ext_checked then (c, s, [])
  else
    (⟨true⟩, (rt s Stmt.pgPartmanExtCreate).1,
     [Event.exec SessionKind.own Stmt.pgPartmanExtCreate,
      Event.commit SessionKind.own])

/-- Embedding of the public `create_partitioned_queue` (queue.py lines
304-356, sync path): run the lazily cached extension check first, then the
create statement; the intervals are converted to strings by the public
method. -/
def create_partitioned_queue (rt : σ → Stmt → σ × List Row) (s : σ)
    (c : ClientFlags) (ext : Bool) (q : String) (pI rI : Int)
    (commit : Bool) : ClientFlags × Outcome σ Unit :=
  let chk := _check_pg_partman_ext rt s c
  let o := _create_partitioned_queue_sync rt chk.2.1 ext q
    (toString pI) (toString rI) commit
  (chk.1, ⟨o.res, o.store, chk.2.2 ++ o.events⟩)

/-- Construction-time engine description (`create_engine` and friends are
external collaborators; only async-ness is observable to the core). -/
structure Engine where
  is_async : Bool
deriving Repr, DecidableEq

/-- Construction-time session-maker description. -/
structure SessionMakerD where
  is_async : Bool
deriving Repr, DecidableEq

/-- The keyword arguments of `PGMQueue.__init__` that feed
`_initialize_sqlalchemy` (queue.py lines 37-55); None means the argument
was not supplied. -/
structure InitArgs where
  dsn : Option String
  engine : Option Engine
  session_maker : Option SessionMakerD
  dialect : Option String
  host : Option String
  port : Option Int
  user : Option String
  password : Option String
  database : Option String
deriving Repr, DecidableEq

/-- Connection state established by `_initialize_sqlalchemy` on success. -/
structure SqlaState where
  engine : Option Engine
  session_maker : Option SessionMakerD
  is_async : Bool
  loop : Bool
deriving Repr, DecidableEq

/-- The dsn assembled from the direct connection arguments (queue.py line
146); None when any of the six direct arguments is missing. -/
def direct_dsn (a : InitArgs) : Option String :=
  match a.dialect, a.host, a.port, a.user, a.password, a.database with
  | some d, some h, some p, some u, some pw, some db =>
    some ("postgresql+" ++ d ++ "://" ++ u ++ ":" ++ pw ++ "@" ++ h ++ ":"
      ++ toString p ++ "/" ++ db)
  | _, _, _, _, _, _ => none

/-- The engine and session-maker selection of `_initialize_sqlalchemy`
(queue.py lines 148-162): prefer a supplied session maker, then a supplied
engine, else build an engine from the dsn; `isAsyncDsn` stands for
`_utils.is_async_dsn` (the module is not under src/), passed in as a
parameter since no verified claim depends on it. -/
def engine_session_setup (isAsyncDsn : String → Bool)
    (sm : Option SessionMakerD) (eng : Option Engine) (dsn : Option String) :
    SqlaState :=
  match sm with
  | some m => ⟨none, some m, m.is_async, m.is_async⟩
  | none =>
    match eng with
    | some e => ⟨some e, some ⟨e.is_async⟩, e.is_async, e.is_async⟩
    | none =>
      let ia := isAsyncDsn (dsn.getD "")
      ⟨some ⟨ia⟩, some ⟨ia⟩, ia, ia⟩

/-- Embedding of `_initialize_sqlalchemy` (queue.py lines 130-162): when no
dsn, engine or session maker is given and the direct connection arguments
are incomplete, raise the configuration error; otherwise establish the
connection state. -/
def _initialize_sqlalchemy (isAsyncDsn : String → Bool) (a : InitArgs) :
    Except Err SqlaState :=
  if a.dsn.isNone && a.engine.isNone && a.session_maker.isNone then
    match direct_dsn a with
    | none => Except.error Err.configuration
    | some d =>
      Except.ok (engine_session_setup isAsyncDsn a.session_maker a.engine (some d))
  else
    Except.ok (engine_session_setup isAsyncDsn a.session_maker a.engine a.dsn)

/-- A constructed client: transaction mode flag, the connection state (None
when construction skipped it), and the partman check flag. -/
structure Client where
  transaction_mode : Bool
  sqla : Option SqlaState
  is_pg_partman_ext_checked : Bool
deriving Repr, DecidableEq

/-- Embedding of `PGMQueue.__init__` (queue.py lines 119-128): with
transaction mode on, return right after setting the flag — no connection
initialization and no extension check; otherwise initialize the connection
state and run `_check_pgmq_ext`, which executes the pgmq extension check
statement and commits on a client-opened session. -/
def PGMQueue_init (isAsyncDsn : String → Bool) (transaction_mode : Bool)
    (a : InitArgs) (rt : σ → Stmt → σ × List Row) (s : σ) :
    Except Err Client × σ × List Event :=
  if transaction_mode then (Except.ok ⟨true, none, false⟩, s, [])
  else
    match _initialize_sqlalchemy isAsyncDsn a with
    | Except.error e => (Except.error e, s, [])
    | Except.ok st =>
      (Except.ok ⟨false, some st, false⟩, (rt s Stmt.pgmqExtCheck).1,
       [Event.exec SessionKind.own Stmt.pgmqExtCheck,
        Event.commit SessionKind.own])

/-- Modelled from the spec: the backing store state for the `pgmq.delete`
primitive (the extension SQL of the repository is not under src/): the set
of live (queue, msg_id) rows. -/
structure StoreState where
  msgs : List (String × Int)
deriving Repr, DecidableEq

/-- Modelled from the spec: the backing store's `pgmq.delete(queue, msg_id)`
primitive (section 6 table and section 4.4): it removes the message row if
present and returns a single boolean row that is true iff a row was
removed.  Verbs other than delete are irrelevant to the claims settled
against this store and yield no rows. -/
def pgmq_store_step (s : StoreState) : Stmt → StoreState × List Row
  | Stmt.delete q m =>
    if (q, m) ∈ s.msgs then
      (⟨s.msgs.filter (fun p => p ≠ (q, m))⟩, [[Val.bool true]])
    else (s, [[Val.bool false]])
  | _ => (s, [])

/-- Modelled from the spec: the store-side bounded-wait loop of
`pgmq.read_with_poll` (section 4.3, extension SQL not under src/): each
element of `batches` is the row set the store finds at one poll attempt,
the list length being the number of attempts the time bound allows (at
least one); the loop returns the first attempt that reaches `qty` rows, or
the final attempt's rows when time is exhausted. -/
def poll_loop (qty : Nat) : List (List Row) → List Row
  | [] => []
  | [b] => b
  | b :: rest => if qty ≤ b.length then b else poll_loop qty rest

/-- The row set obtained at the final poll attempt. -/
def lastAttempt : List (List Row) → List Row
  | [] => []
  | [b] => b
  | _ :: rest => lastAttempt rest

/-- True when a trace holds no commit on any session. -/
def commitFree (evs : List Event) : Bool :=
  evs.all fun e =>
    match e with
    | Event.commit _ => false
    | _ => true

/-- A fixed store behaviour answering every statement with one boolean row. -/
def trivialStore : Unit → Stmt → Unit × List Row :=
  fun _ _ => ((), [[Val.bool true]])

/-- A fixed store behaviour answering every statement with no rows. -/
def emptyStore : Unit → Stmt → Unit × List Row :=
  fun _ _ => ((), [])

/-- A well-formed message row as the store contract shapes it. -/
def goodRow : Row :=
  [Val.int 1, Val.int 1, Val.int 0, Val.int 30, Val.str "p"]

/-- The message the mapper produces from `goodRow`. -/
def goodMsg : Message :=
  ⟨Val.int 1, Val.int 1, Val.int 0, Val.int 30, Val.str "p"⟩

/-- A fixed store behaviour: one well-formed message row for the single and
polled reads, nothing for other statements. -/
def readStore : Unit → Stmt → Unit × List Row :=
  fun _ st =>
    match st with
    | Stmt.read _ _ => ((), [goodRow])
    | Stmt.readWithPoll _ _ _ _ _ => ((), [goodRow])
    | _ => ((), [])

/-- A queue name of 49 characters. -/
def qlong : String := String.mk (List.replicate 49 'a')

/-- A queue name of exactly 48 characters. -/
def q48 : String := String.mk (List.replicate 48 'a')

/-- A short queue name. -/
def qshort : String := String.mk (List.replicate 8 'q')

/-- Construction arguments with nothing supplied. -/
def argsNone : InitArgs :=
  ⟨none, none, none, none, none, none, none, none, none⟩

/-- Construction arguments supplying only a dsn. -/
def argsDsn : InitArgs :=
  ⟨some "postgresql+psycopg://u:p@h:5432/db", none, none, none, none, none,
   none, none, none⟩

/-- A one-message store state for the delete claims. -/
def store1 : StoreState := ⟨[(qshort, 1)]⟩

/-- A fetched row never maps to the queue-name validation error. -/
theorem cellZero_ne_error_validation (r : Option Row) :
    cellZero r ≠ Except.error Err.validation := by
  cases r with
  | none => simp [cellZero]
  | some r => cases h : r.head? <;> simp [cellZero, h]

/-- A nonempty row set never maps to an empty message list. -/
theorem messagesOfRows_ne_some_nil (r : Row) (rs : List Row) :
    messagesOfRows (r :: rs) ≠ some [] := by
  cases h1 : rowToMessage r <;> cases h2 : messagesOfRows rs <;>
    simp [messagesOfRows, h1, h2]

/-- The batch-read fetch mapping never yields an empty list. -/
theorem messagesOfFetch_ne_some_nil (rows : List Row) :
    messagesOfFetch rows ≠ Except.ok (some []) := by
  cases rows with
  | nil => simp [messagesOfFetch]
  | cons r rs =>
    cases h2 : messagesOfRows (r :: rs) with
    | none => simp [messagesOfFetch, h2]
    | some l =>
      have hl : l ≠ [] := fun hl =>
        messagesOfRows_ne_some_nil r rs (hl ▸ h2)
      simp [messagesOfFetch, h2, hl]

/-- A nonempty row set never maps to an empty metrics list. -/
theorem metricsOfRows_ne_some_nil (r : Row) (rs : List Row) :
    metricsOfRows (r :: rs) ≠ some [] := by
  cases h1 : rowToMetrics r <;> cases h2 : metricsOfRows rs <;>
    simp [metricsOfRows, h1, h2]

/-- The metrics fetch mapping never yields an empty list. -/
theorem metricsOfFetch_ne_some_nil (rows : List Row) :
    metricsOfFetch rows ≠ Except.ok (some []) := by
  cases rows with
  | nil => simp [metricsOfFetch]
  | cons r rs =>
    cases h2 : metricsOfRows (r :: rs) with
    | none => simp [metricsOfFetch, h2]
    | some l =>
      have hl : l ≠ [] := fun hl =>
        metricsOfRows_ne_some_nil r rs (hl ▸ h2)
      simp [metricsOfFetch, h2, hl]

/-- When every poll attempt stays under the requested quantity, the
store-side loop returns the final attempt's rows once time is exhausted. -/
theorem poll_loop_exhausted (qty : Nat) (batches : List (List Row))
    (h : ∀ b ∈ batches, b.length < qty) :
    poll_loop qty batches = lastAttempt batches := by
  induction batches with
  | nil => rfl
  | cons b rest ih =>
    cases rest with
    | nil => rfl
    | cons c cs =>
      have hb : b.length < qty := h b (by simp)
      have hn : ¬ qty ≤ b.length := by omega
      have ih2 := ih (fun x hx => h x (List.mem_cons_of_mem _ hx))
      simp [poll_loop, hn, lastAttempt, ih2]

/-- Claim C10: constructing a client with transaction_mode set to true skips
connection initialization entirely: construction succeeds for arbitrary
(even empty) connection arguments without the missing-connection-source
error, no engine or session maker is created, and no statement is executed
against the store at construction time. -/
theorem c10_transaction_mode_skips_initialization {σ : Type}
    (isAsyncDsn : String → Bool) (a : InitArgs)
    (rt : σ → Stmt → σ × List Row) (s : σ) :
    PGMQueue_init isAsyncDsn true a rt s
      = (Except.ok ⟨true, none, false⟩, s, []) := rfl

/-- Claim C4: constructing a client (transaction mode off) with no dsn, no
engine, no session maker and incomplete direct-connection parameters raises
the configuration error before any statement runs; construction with any
one usable source yields a client without that error. -/
theorem c4_construction_requires_connection_source {σ : Type}
    (isAsyncDsn : String → Bool) (a : InitArgs)
    (rt : σ → Stmt → σ × List Row) (s : σ) :
    (a.dsn = none → a.engine = none → a.session_maker = none →
      direct_dsn a = none →
      PGMQueue_init isAsyncDsn false a rt s
        = (Except.error Err.configuration, s, [])) ∧
    ((a.dsn.isSome ∨ a.engine.isSome ∨ a.session_maker.isSome
        ∨ (direct_dsn a).isSome) →
      ∃ c, (PGMQueue_init isAsyncDsn false a rt s).1 = Except.ok c) := by
  constructor
  · intro h1 h2 h3 h4
    simp [PGMQueue_init, _initialize_sqlalchemy, h1, h2, h3, h4]
  · intro h
    by_cases hd : (a.dsn.isNone && a.engine.isNone && a.session_maker.isNone) = true
    · cases hdd : direct_dsn a with
      | none =>
        exfalso
        rw [Bool.and_eq_true, Bool.and_eq_true] at hd
        obtain ⟨⟨g1, g2⟩, g3⟩ := hd
        rw [Option.isNone_iff_eq_none] at g1 g2 g3
        rcases h with h | h | h | h
        · rw [g1] at h; simp at h
        · rw [g2] at h; simp at h
        · rw [g3] at h; simp at h
        · rw [hdd] at h; simp at h
      | some d =>
        simp [PGMQueue_init, _initialize_sqlalchemy, hd, hdd]
    · simp only [Bool.not_eq_true] at hd
      simp [PGMQueue_init, _initialize_sqlalchemy, hd]

/-- Witness for C4 at concrete inputs: no source at all raises the
configuration error; a dsn alone succeeds. -/
theorem c4_construction_requires_connection_source_witness :
    PGMQueue_init (fun _ => false) false argsNone trivialStore ()
      = (Except.error Err.configuration, (), []) ∧
    ∃ c, (PGMQueue_init (fun _ => false) false argsDsn trivialStore ()).1
      = Except.ok c := by
  constructor
  · exact (c4_construction_requires_connection_source (fun _ => false)
      argsNone trivialStore ()).1 rfl rfl rfl rfl
  · exact (c4_construction_requires_connection_source (fun _ => false)
      argsDsn trivialStore ()).2 (Or.inl rfl)

/-- Claim C2: a queue name longer than 48 characters makes validate and
every destructive or creation operation fail with the validation error
before any statement is sent (no store call, store state untouched), and a
name of exactly 48 characters is never rejected by that validation. -/
theorem c2_queue_name_length_validation {σ : Type}
    (rt : σ → Stmt → σ × List Row) (s : σ) (ext : Bool) (q : String)
    (unlogged partedQ commit : Bool) (pI rI : String) :
    (48 < q.length →
      _validate_queue_name_sync rt s ext q
        = ⟨Except.error Err.validation, s, []⟩ ∧
      _create_queue_sync rt s ext q unlogged commit
        = ⟨Except.error Err.validation, s, []⟩ ∧
      _create_partitioned_queue_sync rt s ext q pI rI commit
        = ⟨Except.error Err.validation, s, []⟩ ∧
      _drop_queue_sync rt s ext q partedQ commit
        = ⟨Except.error Err.validation, s, []⟩ ∧
      _purge_sync rt s ext q commit
        = ⟨Except.error Err.validation, s, []⟩) ∧
    (q.length = 48 →
      (_validate_queue_name_sync rt s ext q).res ≠ Except.error Err.validation ∧
      (_create_queue_sync rt s ext q unlogged commit).res
        ≠ Except.error Err.validation ∧
      (_create_partitioned_queue_sync rt s ext q pI rI commit).res
        ≠ Except.error Err.validation ∧
      (_drop_queue_sync rt s ext q partedQ commit).res
        ≠ Except.error Err.validation ∧
      (_purge_sync rt s ext q commit).res ≠ Except.error Err.validation) := by
  constructor
  · intro h
    refine ⟨?_, ?_, ?_, ?_, ?_⟩ <;>
      simp [_validate_queue_name_sync, _create_queue_sync,
        _create_partitioned_queue_sync, _drop_queue_sync, _purge_sync,
        _statement.validate_queue_name, _statement.create_queue,
        _statement.create_partitioned_queue, _statement.drop_queue,
        _statement.purge, h]
  · intro h
    have hn : ¬ 48 < q.length := by omega
    refine ⟨?_, ?_, ?_, ?_, ?_⟩ <;>
      simp [_validate_queue_name_sync, _create_queue_sync,
        _create_partitioned_queue_sync, _drop_queue_sync, _purge_sync,
        _statement.validate_queue_name, _statement.create_queue,
        _statement.create_partitioned_queue, _statement.drop_queue,
        _statement.purge, hn, cellZero_ne_error_validation]

/-- Witness for C2 at concrete inputs: a 49-character name is rejected
without a store call, a 48-character name is accepted. -/
theorem c2_queue_name_length_validation_witness :
    (48 < qlong.length ∧
      _validate_queue_name_sync trivialStore () false qlong
        = ⟨Except.error Err.validation, (), []⟩) ∧
    (q48.length = 48 ∧
      (_create_queue_sync trivialStore () false q48 false true).res
        ≠ Except.error Err.validation) := by
  refine ⟨⟨by decide, ?_⟩, ⟨by decide, ?_⟩⟩
  · exact ((c2_queue_name_length_validation trivialStore () false qlong
      false false true "1" "2").1 (by decide)).1
  · exact ((c2_queue_name_length_validation trivialStore () false q48
      false false true "1" "2").2 (by decide)).2.1

/-- Claim C3 counterexample: create_queue invoked with a caller-supplied
session and the default commit flag (True) commits that very session, so
supplying an external session does not by itself suppress auto-commit. -/
theorem c3_counterexample_commit_on_external_session :
    Event.commit SessionKind.external ∈
      (_create_queue_sync trivialStore () true qshort false true).events := by
  decide

/-- Claim C3 (amended): with a caller-supplied session the core performs no
commit on it exactly when the caller passes commit=False; the explicit
commit flag, not the presence of an external session, controls auto-commit
(and the core never rolls back in any case: no operation issues a
rollback).  Stated for every embedded operation: with commit=False the
trace of each operation run on an external session is commit-free. -/
theorem c3_amended_commit_flag_controls_autocommit {σ : Type}
    (rt : σ → Stmt → σ × List Row) (s : σ) (q payload : String)
    (unlogged partedQ : Bool) (pI rI : String)
    (delay vt batchSize qty mps pim msgId vtOffset : Int)
    (msgIds : List Int) :
    commitFree (_validate_queue_name_sync rt s true q).events = true ∧
    commitFree (_create_queue_sync rt s true q unlogged false).events = true ∧
    commitFree (_create_partitioned_queue_sync rt s true q pI rI false).events = true ∧
    commitFree (_drop_queue_sync rt s true q partedQ false).events = true ∧
    commitFree (_send_sync rt s true q payload delay false).events = true ∧
    commitFree (_read_sync rt s true q vt false).events = true ∧
    commitFree (_read_batch_sync rt s true q vt batchSize false).events = true ∧
    commitFree (_read_with_poll_sync rt s true q vt qty mps pim false).events = true ∧
    commitFree (_read_with_poll_async rt s true q vt qty mps pim false).events = true ∧
    commitFree (_set_vt_sync rt s true q msgId vtOffset false).events = true ∧
    commitFree (_set_vt_async rt s true q msgId vtOffset false).events = true ∧
    commitFree (_pop_sync rt s true q false).events = true ∧
    commitFree (_delete_sync rt s true q msgId false).events = true ∧
    commitFree (_delete_async rt s true q msgId false).events = true ∧
    commitFree (_delete_batch_sync rt s true q msgIds false).events = true ∧
    commitFree (_archive_sync rt s true q msgId false).events = true ∧
    commitFree (_archive_batch_sync rt s true q msgIds false).events = true ∧
    commitFree (_purge_sync rt s true q false).events = true ∧
    commitFree (_metrics_all_sync rt s true).events = true := by
  refine ⟨?_, ?_, ?_, ?_, rfl, rfl, rfl, rfl, rfl, rfl, rfl, rfl, rfl, rfl,
    rfl, rfl, rfl, ?_, rfl⟩
  · unfold _validate_queue_name_sync
    cases _statement.validate_queue_name q <;> rfl
  · unfold _create_queue_sync
    cases _statement.create_queue q unlogged <;> rfl
  · unfold _create_partitioned_queue_sync
    cases _statement.create_partitioned_queue q pI rI <;> rfl
  · unfold _drop_queue_sync
    cases _statement.drop_queue q partedQ <;> rfl
  · unfold _purge_sync
    cases _statement.purge q <;> rfl

/-- Claim C1 evaluation at the failing input: in blocking mode
read_with_poll with no caller-supplied session returns the mapped messages,
while in suspending mode the same call with the same store behaviour fails
on a missing session before any statement reaches the store (its trace is
empty); set_vt diverges the same way.  With a caller-supplied session the
two modes agree, and delete runs the same statement in both modes. -/
theorem c1_sync_async_divergence_at_read_with_poll :
    (PGMQueue.read_with_poll false readStore () false qshort 30 1 5 100 true).res
      = Except.ok (some [goodMsg]) ∧
    (PGMQueue.read_with_poll true readStore () false qshort 30 1 5 100 true).res
      = Except.error Err.noneSession ∧
    (PGMQueue.read_with_poll true readStore () false qshort 30 1 5 100 true).events
      = [] ∧
    (PGMQueue.set_vt false readStore () false qshort 1 10 true).res
      = Except.ok none ∧
    (PGMQueue.set_vt true readStore () false qshort 1 10 true).res
      = Except.error Err.noneSession ∧
    PGMQueue.read_with_poll true readStore () true qshort 30 1 5 100 true
      = PGMQueue.read_with_poll false readStore () true qshort 30 1 5 100 true ∧
    PGMQueue.delete true trivialStore () false qshort 1 true
      = PGMQueue.delete false trivialStore () false qshort 1 true :=
  ⟨rfl, rfl, rfl, rfl, rfl, rfl, rfl⟩

/-- Claim C5: against the spec-modelled pgmq delete primitive, delete
returns true exactly when a row was removed (and the row is then gone from
the store), returns false leaving the store unchanged when the message is
absent; hence a first delete of an existing message returns true and a
repeated delete of the same id returns false. -/
theorem c5_delete_true_iff_row_removed (s : StoreState) (q : String)
    (m : Int) (ext commit : Bool) :
    ((_delete_sync pgmq_store_step s ext q m commit).res
        = Except.ok (Val.bool true) ↔ (q, m) ∈ s.msgs) ∧
    ((q, m) ∈ s.msgs →
      (_delete_sync pgmq_store_step s ext q m commit).res
        = Except.ok (Val.bool true) ∧
      (q, m) ∉ ((_delete_sync pgmq_store_step s ext q m commit).store).msgs ∧
      (_delete_sync pgmq_store_step
          ((_delete_sync pgmq_store_step s ext q m commit).store)
          ext q m commit).res = Except.ok (Val.bool false)) ∧
    ((q, m) ∉ s.msgs →
      (_delete_sync pgmq_store_step s ext q m commit).res
        = Except.ok (Val.bool false) ∧
      (_delete_sync pgmq_store_step s ext q m commit).store = s) := by
  by_cases hm : (q, m) ∈ s.msgs
  · refine ⟨?_, fun _ => ⟨?_, ?_, ?_⟩, fun h => absurd hm h⟩
    · simp [_delete_sync, _statement.delete, pgmq_store_step, hm, cellZero]
    · simp [_delete_sync, _statement.delete, pgmq_store_step, hm, cellZero]
    · simp [_delete_sync, _statement.delete, pgmq_store_step, hm,
        List.mem_filter]
    · simp [_delete_sync, _statement.delete, pgmq_store_step, hm, cellZero,
        List.mem_filter]
  · refine ⟨?_, fun h => absurd h hm, fun _ => ⟨?_, ?_⟩⟩ <;>
      simp [_delete_sync, _statement.delete, pgmq_store_step, hm, cellZero]

/-- Witness for C5 at a concrete one-message store: the first delete
returns true, the repeated delete returns false. -/
theorem c5_delete_true_iff_row_removed_witness :
    (qshort, 1) ∈ store1.msgs ∧
    (_delete_sync pgmq_store_step store1 false qshort 1 true).res
      = Except.ok (Val.bool true) ∧
    (_delete_sync pgmq_store_step
        ((_delete_sync pgmq_store_step store1 false qshort 1 true).store)
        false qshort 1 true).res = Except.ok (Val.bool false) := by
  have h := (c5_delete_true_iff_row_removed store1 qshort 1 false true).2.1
    (by decide)
  exact ⟨by decide, h.1, h.2.2⟩

/-- Claim C6: the single read returns at most one message — an absent
result (None, not an error) when the store yields no row, and a Message
whose five fields are taken positionally from the first row when the store
yields one. -/
theorem c6_read_positional_mapping {σ : Type}
    (rt : σ → Stmt → σ × List Row) (s : σ) (ext : Bool) (q : String)
    (vt : Int) (commit : Bool) :
    ((rt s (Stmt.read q vt)).2 = [] →
      (_read_sync rt s ext q vt commit).res = Except.ok none) ∧
    (∀ a b c d e rest more,
      (rt s (Stmt.read q vt)).2 = (a :: b :: c :: d :: e :: rest) :: more →
      (_read_sync rt s ext q vt commit).res
        = Except.ok (some ⟨a, b, c, d, e⟩)) := by
  constructor
  · intro h
    simp [_read_sync, _statement.read, h, messageOfRow]
  · intro a b c d e rest more h
    simp [_read_sync, _statement.read, h, messageOfRow, rowToMessage]

/-- Witness for C6 at concrete stores: one well-formed row maps to its
positional Message; an empty result maps to None. -/
theorem c6_read_positional_mapping_witness :
    (readStore () (Stmt.read qshort 30)).2 = [goodRow] ∧
    (_read_sync readStore () false qshort 30 true).res
      = Except.ok (some goodMsg) ∧
    (emptyStore () (Stmt.read qshort 30)).2 = [] ∧
    (_read_sync emptyStore () false qshort 30 true).res = Except.ok none := by
  refine ⟨rfl, ?_, rfl, ?_⟩
  · exact (c6_read_positional_mapping readStore () false qshort 30 true).2
      (Val.int 1) (Val.int 1) (Val.int 0) (Val.int 30) (Val.str "p") [] [] rfl
  · exact (c6_read_positional_mapping emptyStore () false qshort 30 true).1 rfl

/-- Claim C7: the pg_partman extension check runs at most once per client:
the check leaves the flag set, a call with the flag already set does
nothing (no statement, no state change), the flag never reverts, and a
partitioned-queue creation on a checked client issues no extension-check
statement while the first one on an unchecked client starts with it. -/
theorem c7_partman_check_once_per_client {σ : Type}
    (rt : σ → Stmt → σ × List Row) (s : σ) (c : ClientFlags) :
    (_check_pg_partman_ext rt s c).1.is_pg_partman_ext_checked = true ∧
    (c.is_pg_partman_ext_checked = true →
      _check_pg_partman_ext rt s c = (c, s, [])) ∧
    (∀ s2 : σ, _check_pg_partman_ext rt s2 (_check_pg_partman_ext rt s c).1
      = ((_check_pg_partman_ext rt s c).1, s2, [])) ∧
    (c.is_pg_partman_ext_checked = true →
      ∀ (ext : Bool) (q : String) (pI rI : Int) (commit : Bool),
        Event.exec SessionKind.own Stmt.pgPartmanExtCreate ∉
          (create_partitioned_queue rt s c ext q pI rI commit).2.events) ∧
    (c.is_pg_partman_ext_checked = false →
      ∀ (ext : Bool) (q : String) (pI rI : Int) (commit : Bool),
        (create_partitioned_queue rt s c ext q pI rI commit).2.events.head?
          = some (Event.exec SessionKind.own Stmt.pgPartmanExtCreate)) := by
  have hset : (_check_pg_partman_ext rt s c).1.is_pg_partman_ext_checked = true := by
    unfold _check_pg_partman_ext
    by_cases h : c.is_pg_partman_ext_checked <;> simp [h]
  refine ⟨hset, ?_, ?_, ?_, ?_⟩
  · intro h
    simp [_check_pg_partman_ext, h]
  · intro s2
    by_cases h : c.is_pg_partman_ext_checked <;>
      simp [_check_pg_partman_ext, h]
  · intro h ext q pI rI commit hmem
    simp only [create_partitioned_queue] at hmem
    rw [show _check_pg_partman_ext rt s c = (c, s, []) by
      simp [_check_pg_partman_ext, h]] at hmem
    simp only [List.nil_append] at hmem
    unfold _create_partitioned_queue_sync
      _statement.create_partitioned_queue at hmem
    by_cases hl : 48 < q.length
    · simp [hl] at hmem
    · cases commit <;> simp [hl, commitEvents] at hmem
  · intro h ext q pI rI commit
    simp [create_partitioned_queue, _check_pg_partman_ext, h]

/-- Witness for C7 at concrete inputs: a checked client skips the check
entirely; an unchecked client's first partitioned-queue creation begins
with the extension-check statement. -/
theorem c7_partman_check_once_per_client_witness :
    _check_pg_partman_ext trivialStore () (⟨true⟩ : ClientFlags)
      = (⟨true⟩, (), []) ∧
    (_check_pg_partman_ext trivialStore ()
      (⟨false⟩ : ClientFlags)).1.is_pg_partman_ext_checked = true ∧
    Event.exec SessionKind.own Stmt.pgPartmanExtCreate ∉
      (create_partitioned_queue trivialStore () ⟨true⟩ false qshort
        10000 100000 true).2.events ∧
    (create_partitioned_queue trivialStore () ⟨false⟩ false qshort
        10000 100000 true).2.events.head?
      = some (Event.exec SessionKind.own Stmt.pgPartmanExtCreate) := by
  refine ⟨?_, ?_, ?_, ?_⟩
  · exact (c7_partman_check_once_per_client trivialStore () ⟨true⟩).2.1 rfl
  · exact (c7_partman_check_once_per_client trivialStore () ⟨false⟩).1
  · exact (c7_partman_check_once_per_client trivialStore () ⟨true⟩).2.2.2.1
      rfl false qshort 10000 100000 true
  · exact (c7_partman_check_once_per_client trivialStore () ⟨false⟩).2.2.2.2
      rfl false qshort 10000 100000 true

/-- Claim C8: when every poll attempt stays under the requested quantity
the store-side loop returns the final attempt's rows on time exhaustion,
and the client maps whatever was obtained to a success — an empty result
becomes an absent result (None), a nonempty under-quantity result becomes
the message list; under-fulfilment is never an error. -/
theorem c8_poll_underfulfilment_is_success {σ : Type} (qty0 : Nat)
    (batches : List (List Row)) (rt : σ → Stmt → σ × List Row) (s : σ)
    (ext : Bool) (q : String) (vt qty mps pim : Int) (commit : Bool) :
    ((∀ b ∈ batches, b.length < qty0) →
      poll_loop qty0 batches = lastAttempt batches) ∧
    ((rt s (Stmt.readWithPoll q vt qty mps pim)).2 = [] →
      (_read_with_poll_sync rt s ext q vt qty mps pim commit).res
        = Except.ok none) ∧
    (∀ ms, messagesOfRows (rt s (Stmt.readWithPoll q vt qty mps pim)).2
        = some ms →
      (rt s (Stmt.readWithPoll q vt qty mps pim)).2 ≠ [] →
      (_read_with_poll_sync rt s ext q vt qty mps pim commit).res
        = Except.ok (some ms)) := by
  refine ⟨poll_loop_exhausted qty0 batches, ?_, ?_⟩
  · intro h
    simp [_read_with_poll_sync, _statement.read_with_poll, h, messagesOfFetch]
  · intro ms h hne
    simp [_read_with_poll_sync, _statement.read_with_poll, messagesOfFetch,
      hne, h]

/-- Witness for C8 at concrete inputs: two empty attempts under quantity 1
end with the empty final attempt; the client maps an empty result to None
and a single row under quantity 2 to a one-message success. -/
theorem c8_poll_underfulfilment_is_success_witness :
    poll_loop 1 [[], []] = lastAttempt [[], []] ∧
    (_read_with_poll_sync emptyStore () false qshort 30 1 5 100 true).res
      = Except.ok none ∧
    (_read_with_poll_sync readStore () false qshort 30 2 5 100 true).res
      = Except.ok (some [goodMsg]) := by
  refine ⟨?_, ?_, ?_⟩
  · exact (c8_poll_underfulfilment_is_success 1 [[], []] emptyStore () false
      qshort 30 1 5 100 true).1 (by decide)
  · exact (c8_poll_underfulfilment_is_success 1 [[], []] emptyStore () false
      qshort 30 1 5 100 true).2.1 rfl
  · exact (c8_poll_underfulfilment_is_success 1 [[], []] readStore () false
      qshort 30 2 5 100 true).2.2 [goodMsg] rfl (by decide)

/-- Claim C9: the multi-row operations read_batch, read_with_poll and
metrics_all return an absent result (None) on zero rows and can never
return an empty list. -/
theorem c9_zero_rows_absent_never_empty_list {σ : Type}
    (rt : σ → Stmt → σ × List Row) (s : σ) (ext : Bool) (q : String)
    (vt batchSize qty mps pim : Int) (commit : Bool) :
    ((rt s (Stmt.readBatch q vt batchSize)).2 = [] →
      (_read_batch_sync rt s ext q vt batchSize commit).res
        = Except.ok none) ∧
    (_read_batch_sync rt s ext q vt batchSize commit).res
      ≠ Except.ok (some []) ∧
    ((rt s (Stmt.readWithPoll q vt qty mps pim)).2 = [] →
      (_read_with_poll_sync rt s ext q vt qty mps pim commit).res
        = Except.ok none) ∧
    (_read_with_poll_sync rt s ext q vt qty mps pim commit).res
      ≠ Except.ok (some []) ∧
    ((rt s Stmt.metricsAll).2 = [] →
      (_metrics_all_sync rt s ext).res = Except.ok none) ∧
    (_metrics_all_sync rt s ext).res ≠ Except.ok (some []) := by
  refine ⟨?_, ?_, ?_, ?_, ?_, ?_⟩
  · intro h
    simp [_read_batch_sync, _statement.read_batch, h, messagesOfFetch]
  · exact messagesOfFetch_ne_some_nil _
  · intro h
    simp [_read_with_poll_sync, _statement.read_with_poll, h, messagesOfFetch]
  · exact messagesOfFetch_ne_some_nil _
  · intro h
    simp [_metrics_all_sync, _statement.metrics_all, h, metricsOfFetch]
  · exact metricsOfFetch_ne_some_nil _

/-- Witness for C9 at a concrete empty store: all three operations return
an absent result. -/
theorem c9_zero_rows_absent_never_empty_list_witness :
    (_read_batch_sync emptyStore () false qshort 30 5 true).res
      = Except.ok none ∧
    (_read_with_poll_sync emptyStore () false qshort 30 1 5 100 true).res
      = Except.ok none ∧
    (_metrics_all_sync emptyStore () false).res = Except.ok none := by
  have h := c9_zero_rows_absent_never_empty_list emptyStore () false qshort
    30 5 1 5 100 true
  exact ⟨h.1 rfl, h.2.2.1 rfl, h.2.2.2.2.1 rfl⟩

end PgmqSqla
